import Mathlib

/-!
Verification of the guardrailed extraction-and-staging pipeline.

A shallow embedding of the pipeline's core functions: duration parsing,
project resolution, session selection with the truth-gate slug filter,
marker-based extraction, item validation, and staging insertion.

Conventions of the embedding:
* JavaScript strings are modelled as Lean `String` (inputs are ASCII, so
  UTF-16 code-unit counts coincide with character counts).
* Multiline regexes anchored with `^`/`$` operate per line; transcript
  content is decomposed with `String.splitOn "\n"` (the code's inputs use
  LF line endings).
* The record store is passed explicitly as lists of records; wall-clock
  timestamps are `Nat` values passed explicitly (ISO-8601 strings compare
  the same way as the instants they denote).
* The md5 digest of `generateHash` is modelled by its preimage string
  (the joined data); md5 is a fixed deterministic function, so equal
  preimages give equal digests, which is the only property used here.
-/

namespace Jason

/-! Section: String helpers mirroring the JavaScript primitives -/

/-- JavaScript `\s` on the ASCII range: space, tab, LF, CR, VT, FF. -/
def jsIsSpace (c : Char) : Bool :=
  c = ' ' || c = '\t' || c = '\n' || c = '\r' || c = '\x0b' || c = '\x0c'

/-- Strip leading JS whitespace from a character list. -/
def dropLeadingWs (l : List Char) : List Char :=
  l.dropWhile jsIsSpace

/-- JavaScript `String.prototype.trim` on a character list. -/
def jsTrimList (l : List Char) : List Char :=
  ((l.dropWhile jsIsSpace).reverse.dropWhile jsIsSpace).reverse

/-- JavaScript `String.prototype.trim`. -/
def jsTrim (s : String) : String :=
  String.mk (jsTrimList s.toList)

/-- JavaScript `s.substring(0, n)`. -/
def jsTake (s : String) (n : Nat) : String :=
  String.mk (s.toList.take n)

/-- JavaScript `s.startsWith(p)`. -/
def jsStartsWith (s p : String) : Bool :=
  p.toList.isPrefixOf s.toList

/-- Does `needle` occur as a contiguous run inside `haystack`?
(JavaScript `haystack.includes(needle)`). -/
def listIsInfixOf : List Char → List Char → Bool
  | n, [] => n.isEmpty
  | n, h :: t => n.isPrefixOf (h :: t) || listIsInfixOf n t

/-- JavaScript `haystack.includes(needle)`. -/
def jsIncludes (haystack needle : String) : Bool :=
  listIsInfixOf needle.toList haystack.toList

/-- ASCII-lowercase every character (JavaScript `toLowerCase` on ASCII). -/
def lowerList (l : List Char) : List Char :=
  l.map Char.toLower

/-- Value of a digit string (JavaScript `parseInt(value, 10)` on an
all-digit string). -/
def digitsToNat (ds : List Char) : Nat :=
  ds.foldl (fun acc c => acc * 10 + (c.toNat - '0'.toNat)) 0

/-! Section: Duration Parser (`parseDuration` in `selectSessions.js`)

JS source:
```
function parseDuration(duration) \x7b
  const match = duration.match(/^(\d+)(m|h|d)$/);
  if (!match) return 30 * 60 * 1000; // Default 30 minutes
  const [, value, unit] = match;
  const ms = \x7b m: 60 * 1000, h: 60 * 60 * 1000, d: 24 * 60 * 60 * 1000 \x7d;
  return parseInt(value, 10) * ms[unit];
\x7d
```
The sibling copy in `extract/selectSessions.js` is identical except the
fallback is 3 hours instead of 30 minutes. -/

/-- Milliseconds for a unit character (the `ms` lookup object). -/
def durationMsOfUnit (u : Char) : Nat :=
  if u = 'm' then 60 * 1000
  else if u = 'h' then 60 * 60 * 1000
  else 24 * 60 * 60 * 1000

/-- `parseDuration` with the fallback value left as a parameter (the two
copies in the source differ only in the fallback). -/
def parseDurationCore (defaultMs : Nat) (s : String) : Nat :=
  match s.toList.getLast? with
  | some u =>
    let ds := s.toList.dropLast
    if ds ≠ [] && ds.all (fun c => c.isDigit) && (u = 'm' || u = 'h' || u = 'd')
    then digitsToNat ds * durationMsOfUnit u
    else defaultMs
  | none => defaultMs

/-- `parseDuration` from `src/selectSessions.js` (fallback 30 minutes). -/
def parseDuration (s : String) : Nat :=
  parseDurationCore (30 * 60 * 1000) s

/-- `parseDuration` from `src/extract/selectSessions.js`
(fallback 3 hours). -/
def parseDurationExtract (s : String) : Nat :=
  parseDurationCore (3 * 60 * 60 * 1000) s

/-- The shape accepted by the regex `^(\d+)(m|h|d)$`: a non-empty digit
string followed by a single unit character. -/
def DurationWellFormed (s : String) : Prop :=
  ∃ ds u, s.toList = ds ++ [u] ∧ ds ≠ [] ∧
    (∀ c ∈ ds, c.isDigit = true) ∧ (u = 'm' ∨ u = 'h' ∨ u = 'd')

/-! Section: Project Resolver (`resolveProjectId` in `lib/resolveProject.js`) -/

/-- A row of the `dev_projects` collection (columns selected by the
resolver: `id, slug, name`; `slug` is nullable). -/
structure Project where
  id : String
  slug : Option String
  name : String
deriving Repr, DecidableEq

/-- `resolveProjectId(slug)`, with the project list (the result of
`loadProjects()`) passed explicitly.  JS source:
```
if (!slug || slug === 'null' || slug === 'terminal' || slug === 'unassigned') return null;
const projects = await loadProjects();
let match = projects.find(p => p.slug === slug);
if (match) return match.id;
match = projects.find(p => p.slug && p.slug.startsWith(slug + '-'));
if (match) return match.id;
match = projects.find(p => p.slug && p.slug.includes(slug));
if (match) return match.id;
return null;
```
-/
def resolveProjectId (projects : List Project) : Option String → Option String
  | none => none
  | some s =>
    if s = "" || s = "null" || s = "terminal" || s = "unassigned" then none
    else
      match projects.find? (fun p => p.slug = some s) with
      | some p => some p.id
      | none =>
        match projects.find? (fun p =>
            match p.slug with
            | some t => jsStartsWith t (s ++ "-")
            | none => false) with
        | some p => some p.id
        | none =>
          match projects.find? (fun p =>
              match p.slug with
              | some t => jsIncludes t s
              | none => false) with
          | some p => some p.id
          | none => none

/-- Project resolution exactly as claim C6 words it: only `null` (absent),
`"unassigned"` and `"terminal"` short-circuit to `null`; otherwise the
first project matching exact / prefix / contains, in that order, wins. -/
def resolveProjectIdClaimC6 (projects : List Project) : Option String → Option String
  | none => none
  | some s =>
    if s = "unassigned" || s = "terminal" then none
    else
      (((projects.find? (fun p => p.slug = some s)).orElse (fun _ =>
        projects.find? (fun p =>
          match p.slug with
          | some t => jsStartsWith t (s ++ "-")
          | none => false))).orElse (fun _ =>
        projects.find? (fun p =>
          match p.slug with
          | some t => jsIncludes t s
          | none => false))).map (fun p => p.id)

/-- The amended sentinel set: the code short-circuits on `null`, the empty
string (falsy), and the literal strings `"null"`, `"terminal"`,
`"unassigned"`. -/
def slugSentinel : Option String → Bool
  | none => true
  | some s => s = "" || s = "null" || s = "terminal" || s = "unassigned"

/-- Project resolution as amended claim C6 words it: sentinel inputs
(including the empty string and the literal `"null"`) resolve to `null`
immediately; otherwise first match in order exact, prefix (`input + "-"`),
contains; `null` when nothing matches. -/
def resolveProjectIdAmendedSpec (projects : List Project) (slug : Option String) :
    Option String :=
  if slugSentinel slug then none
  else
    let s := slug.getD ""
    (((projects.find? (fun p => p.slug = some s)).orElse (fun _ =>
      projects.find? (fun p =>
        match p.slug with
        | some t => jsStartsWith t (s ++ "-")
        | none => false))).orElse (fun _ =>
      projects.find? (fun p =>
        match p.slug with
        | some t => jsIncludes t s
        | none => false))).map (fun p => p.id)

/-! Section: Session Selector (`selectSessions` in `src/selectSessions.js`)

The record store's session collection is an explicit list; the store's
`order('created_at', ascending: true)` is modelled by an insertion sort on
the `created_at` timestamp. -/

/-- A row of the `dev_ai_sessions` collection (the fields this pipeline
reads: identity, nullable project slug, status, creation timestamp). -/
structure Session where
  id : String
  project_slug : Option String
  status : String
  created_at : Nat
deriving Repr, DecidableEq

/-- Ascending creation-time order used by the window query. -/
def createdLe (a b : Session) : Prop :=
  a.created_at ≤ b.created_at

instance : DecidableRel createdLe := fun a b => Nat.decLe a.created_at b.created_at

instance : IsTotal Session createdLe :=
  ⟨fun a b => Nat.le_total a.created_at b.created_at⟩

instance : IsTrans Session createdLe :=
  ⟨fun _ _ _ hab hbc => Nat.le_trans hab hbc⟩

/-- The store-side predicate of the window query: created at or after the
cutoff, status never `extracted`, and equal to the required status when one
is supplied. -/
def windowPred (cutoff : Nat) (status : Option String) (s : Session) : Bool :=
  decide (cutoff ≤ s.created_at) && !(s.status == "extracted") &&
    (match status with
     | some st => s.status == st
     | none => true)

/-- The window query: filter, order ascending by `created_at`, and
over-fetch `limit * 3` rows (slug filtering happens client-side). -/
def windowQuery (store : List Session) (cutoff : Nat) (status : Option String)
    (limit : Nat) : List Session :=
  ((store.filter (windowPred cutoff status)).insertionSort createdLe).take (limit * 3)

/-- The truth-gate slug filter applied client-side.  JS source:
```
if (slugs.length > 0) \x7b
  filtered = sessions.filter(s => \x7b
    const sessionSlug = s.project_slug || '';
    if (!sessionSlug) return false;
    return slugs.some(slug => sessionSlug.includes(slug));
  \x7d);
\x7d else \x7b
  filtered = sessions.filter(s => \x7b
    const sessionSlug = s.project_slug || '';
    return sessionSlug && sessionSlug !== 'unassigned' && sessionSlug !== 'terminal';
  \x7d);
\x7d
```
-/
def truthGate (slugs : List String) (s : Session) : Bool :=
  let sessionSlug := s.project_slug.getD ""
  if slugs.length > 0 then
    !(sessionSlug == "") && slugs.any (fun slug => jsIncludes sessionSlug slug)
  else
    !(sessionSlug == "") && !(sessionSlug == "unassigned") && !(sessionSlug == "terminal")

/-- The window-mode pipeline after the store query: truth-gate filter. -/
def windowFiltered (store : List Session) (now : Nat) (since : String)
    (slugs : List String) (limit : Nat) (status : Option String) : List Session :=
  let cutoff := now - parseDuration since
  (windowQuery store cutoff status limit).filter (truthGate slugs)

/-- `selectSessions` in window mode (no `sessionId` supplied): query,
truth-gate filter, then truncate to `limit`. -/
def selectSessionsWindow (store : List Session) (now : Nat) (since : String)
    (slugs : List String) (limit : Nat) (status : Option String) : List Session :=
  (windowFiltered store now since slugs limit status).take limit

/-- `selectSessions` when a specific `sessionId` is requested: a point
lookup by identity (`.eq('id', sessionId).single()`); no status check and
no truth-gate filter are applied on this path. -/
def selectSessionsById (store : List Session) (sessionId : String) : List Session :=
  match store.find? (fun s => s.id == sessionId) with
  | some s => [s]
  | none => []

/-! Section: Extractor (`extractItems.js`)

The `PATTERNS` regexes are all of the shape
`^\s*MARKER\s*(.{10,200})$` (case-insensitive) or, for the checkbox form,
`^\s*(?:-|\*)\s*\[\s*\]\s+(.{10,200})$`.  Anchored `^`/`$` with the `m`
flag and `.` excluding line terminators make them per-line matchers, so
they are modelled on the list of lines of the content.  `captureTail`
reproduces the backtracking semantics of `\s*(.{10,200})$` (resp. `\s+`):
the whitespace run is consumed greedily, then gives characters back to the
capture until the capture reaches its minimum length of 10. -/

/-- The capture of `\s{minWs,}(.{10,200})$` applied to the tail `r` of a
line: `none` when the regex fails, otherwise the captured characters. -/
def captureTail (minWs : Nat) (r : List Char) : Option (List Char) :=
  let k := (r.takeWhile jsIsSpace).length
  let n := r.length
  if k < minWs then none
  else if 10 ≤ n - k then
    if n - k ≤ 200 then some (r.drop k) else none
  else if 10 ≤ n && minWs ≤ n - 10 then some (r.drop (n - 10))
  else none

/-- One pattern of the `PATTERNS` table: a case-insensitive marker such as
`TODO:` followed by the capture, or the checkbox list-item form. -/
inductive MarkerPattern where
  | marker (m : String)
  | checkbox
deriving Repr, DecidableEq

/-- Apply one pattern to one line, returning the regex capture group. -/
def lineCapture (p : MarkerPattern) (line : String) : Option (List Char) :=
  match p with
  | .marker m =>
    let s := dropLeadingWs line.toList
    if m.toList.isPrefixOf (lowerList s) then captureTail 0 (s.drop m.toList.length)
    else none
  | .checkbox =>
    match dropLeadingWs line.toList with
    | c :: rest =>
      if c = '-' || c = '*' then
        match dropLeadingWs rest with
        | '[' :: r2 =>
          match dropLeadingWs r2 with
          | ']' :: r4 => captureTail 1 r4
          | _ => none
        | _ => none
      else none
    | [] => none

/-- `PATTERNS.todo` (markers are stored lowercase; matching lowercases the
line first, mirroring the `i` flag). -/
def todoPatterns : List MarkerPattern :=
  [.marker "todo:", .marker "fixme:", .marker "action item:", .checkbox]

/-- `PATTERNS.bug`. -/
def bugPatterns : List MarkerPattern :=
  [.marker "bug:", .marker "issue:", .marker "error:"]

/-- `PATTERNS.decision`. -/
def decisionPatterns : List MarkerPattern :=
  [.marker "decision:", .marker "decided:"]

/-- An extracted candidate item.  Rule items carry a title, the matched
text as content, an optional priority and a single evidence entry; the
worklog item additionally carries a `tags` list.  Absent JS fields are
`none` / `[]`. -/
structure Evidence where
  session_id : String
  excerpt : String
  location : String
deriving Repr, DecidableEq

structure Item where
  bucket : String
  title : Option String
  content : String
  priority : Option String
  tags : List String
  evidence : List Evidence
deriving Repr, DecidableEq

/-- The inner `while ((match = pattern.exec(content)) !== null)` loop for a
single pattern: scan the lines in order, keeping each match whose trimmed
text has length at least 10 and has not been seen (case-insensitively)
before.  Returns the produced items and the updated `seen` set (modelled
as a list of lowercased texts). -/
def scanPattern (p : MarkerPattern) (bucket : String) (priority : Option String)
    (sessionId : String) : List String → List String → List Item × List String
  | [], seen => ([], seen)
  | line :: rest, seen =>
    match lineCapture p line with
    | some c =>
      let text := String.mk (jsTrimList c)
      let lowered := String.mk (lowerList (jsTrimList c))
      if 10 ≤ text.length && !(seen.contains lowered) then
        let item : Item :=
          { bucket := bucket
            title := some (jsTake text 150)
            content := text
            priority := priority
            tags := []
            evidence := [⟨sessionId, jsTake line 150, "strict-marker"⟩] }
        let next := scanPattern p bucket priority sessionId rest (seen ++ [lowered])
        (item :: next.1, next.2)
      else scanPattern p bucket priority sessionId rest seen
    | none => scanPattern p bucket priority sessionId rest seen

/-- The `for (const pattern of PATTERNS.x)` loop: apply each pattern of a
family over the whole content, threading the `seen` set. -/
def scanPatterns (ps : List MarkerPattern) (bucket : String) (priority : Option String)
    (sessionId : String) (lines : List String) (seen : List String) :
    List Item × List String :=
  match ps with
  | [] => ([], seen)
  | p :: rest =>
    let first := scanPattern p bucket priority sessionId lines seen
    let more := scanPatterns rest bucket priority sessionId lines first.2
    (first.1 ++ more.1, more.2)

/-- `extractWithRules(content, session)`: the three pattern families in
order (todo, bug, decision) with one shared `seen` set.  Todo items get
bucket `Todos` and priority `medium`, bug items `Bugs Open` / `high`,
decision items `Decisions` with no priority. -/
def extractWithRules (lines : List String) (session : Session) : List Item :=
  let todo := scanPatterns todoPatterns "Todos" (some "medium") session.id lines []
  let bug := scanPatterns bugPatterns "Bugs Open" (some "high") session.id lines todo.2
  let dec := scanPatterns decisionPatterns "Decisions" none session.id lines bug.2
  todo.1 ++ bug.1 ++ dec.1

/-- Count of lines beginning with a turn marker
(`(content.match(/^USER:/gm) || []).length`). -/
def countTurnLines (lines : List String) (pre : String) : Nat :=
  (lines.filter (fun l => jsStartsWith l pre)).length

/-- The capture of `/^USER:\s*(.{20,200})/m` on one line: `none` when the
line does not start with `USER:` or fewer than 20 characters can be
captured; otherwise greedy whitespace skip, then up to 200 characters
(backtracking pads short captures with trailing whitespace of the run). -/
def userTopicOfLine (line : String) : Option (List Char) :=
  if ("USER:".toList).isPrefixOf line.toList then
    let r := line.toList.drop 5
    let k := (r.takeWhile jsIsSpace).length
    let n := r.length
    if 20 ≤ n - k then some ((r.drop k).take 200)
    else if 20 ≤ n then some (r.drop (n - 20))
    else none
  else none

/-- First line admitting a `USER:` topic capture. -/
def firstUserTopic : List String → Option (List Char)
  | [] => none
  | l :: ls =>
    match userTopicOfLine l with
    | some c => some c
    | none => firstUserTopic ls

/-- `session.project_slug || 'unknown'`. -/
def worklogSlug (session : Session) : String :=
  match session.project_slug with
  | some s => if s = "" then "unknown" else s
  | none => "unknown"

/-- The worklog topic: the trimmed first `USER:` capture, or the generic
fallback `'Development work'`. -/
def worklogTopic (lines : List String) : String :=
  match firstUserTopic lines with
  | some c => String.mk (jsTrimList c)
  | none => "Development work"

/-- `generateWorklog(content, session)`: the one mechanical worklog item
always produced per session. -/
def generateWorklog (lines : List String) (session : Session) : Item :=
  let slug := worklogSlug session
  let userTurns := countTurnLines lines "USER:"
  let assistantTurns := countTurnLines lines "ASSISTANT:"
  let topic := worklogTopic lines
  { bucket := "Work Log"
    title := some (slug ++ ": " ++ jsTake topic 80)
    content := "Development session on " ++ slug ++ ". " ++
      toString (userTurns + assistantTurns) ++ " conversation turns."
    priority := none
    tags := [slug]
    evidence := [⟨session.id, topic, "session-summary"⟩] }

/-- A transcript as handed to `extractItems` (only `content` is read). -/
structure Transcript where
  content : String
deriving Repr, DecidableEq

/-- Lines of the transcript content, as seen by the `m`-flagged regexes. -/
def contentLines (s : String) : List String :=
  s.splitOn "\n"

/-- `extractItems(transcript, session)`: empty output on empty content,
otherwise the worklog item followed by the rule-matched items. -/
def extractItems (t : Transcript) (session : Session) : List Item :=
  if t.content = "" then []
  else
    generateWorklog (contentLines t.content) session ::
      extractWithRules (contentLines t.content) session

/-! Section: Validator (`validateItems.js`)

The Ajv schema checks are reproduced semantically; error strings stand in
for Ajv's messages (only the presence of errors matters for validity).
In this embedding `evidence` entries always carry a `session_id` field, so
the schema's `required: ['session_id']` clause is enforced by the `Item`
type itself. -/

def VALID_BUCKETS : List String :=
  ["Bugs Open", "Bugs Fixed", "Todos", "Journal", "Work Log", "Ideas",
   "Decisions", "Lessons", "System Breakdown", "How-To Guide", "Schematic",
   "Reference", "Naming Conventions", "File Structure", "Database Patterns",
   "API Patterns", "Component Patterns", "Quirks & Gotchas", "Snippets", "Other"]

/-- The Ajv base-schema violations of an item. -/
def schemaErrors (item : Item) : List String :=
  (if VALID_BUCKETS.contains item.bucket then [] else ["bucket not in enum"]) ++
  (match item.title with
   | some t => if 1 ≤ t.length && t.length ≤ 500 then [] else ["title length out of range"]
   | none => []) ++
  (if 5 ≤ item.content.length && item.content.length ≤ 10000 then []
   else ["content length out of range"]) ++
  (match item.priority with
   | some p => if ["low", "medium", "high", "critical"].contains p then []
               else ["priority not in enum"]
   | none => []) ++
  (if 1 ≤ item.evidence.length then [] else ["evidence must have at least one entry"]) ++
  (if item.evidence.all (fun e => e.excerpt.length ≤ 500) then []
   else ["excerpt too long"])

/-- The garbage-title regexes:
`^\|`, `^\[\d+\]`, `^http`, `^\s*$`, `^[^a-zA-Z]*$`. -/
def isAsciiLetter (c : Char) : Bool :=
  ('a' ≤ c && c ≤ 'z') || ('A' ≤ c && c ≤ 'Z')

def bracketOrdinalStart (t : String) : Bool :=
  match t.toList with
  | '[' :: rest =>
    (rest.takeWhile Char.isDigit ≠ []) &&
      (match rest.dropWhile Char.isDigit with
       | ']' :: _ => true
       | _ => false)
  | _ => false

def titleGarbage (t : String) : Bool :=
  jsStartsWith t "|" ||
  bracketOrdinalStart t ||
  jsStartsWith t "http" ||
  t.toList.all jsIsSpace ||
  t.toList.all (fun c => !(isAsciiLetter c))

/-- All failure reasons `validateItem` accumulates for one item. -/
def validateItemErrors (item : Item) : List String :=
  schemaErrors item ++
  (if jsTrim item.content = "" then ["content is empty or whitespace only"] else []) ++
  (if item.evidence.any (fun e => !(e.session_id == "")) then []
   else ["evidence must include at least one session_id"]) ++
  (match item.title with
   | some t => if !(t == "") && titleGarbage t then ["title appears to be garbage"] else []
   | none => []) ++
  (if !(item.content == "") && item.content.length < 10 then
     ["content too short to be meaningful"]
   else [])

/-- `validateItem(item)`: valid iff zero failure reasons accumulate. -/
structure ValidationResult where
  valid : Bool
  errors : List String
deriving Repr, DecidableEq

def validateItem (item : Item) : ValidationResult :=
  let errors := validateItemErrors item
  { valid := errors.isEmpty, errors := errors }

/-- `validateItems(items)`: partition into valid items and invalid items
paired with their joined reason string. -/
def validateItems : List Item → List Item × List (Item × String)
  | [] => ([], [])
  | i :: rest =>
    let r := validateItem i
    let acc := validateItems rest
    if r.valid then (i :: acc.1, acc.2)
    else (acc.1, (i, String.intercalate "; " r.errors) :: acc.2)

/-! Section: Stager (`insertStaging.js`)

`generateHash` md5-digests `[title || '', content.substring(0,200),
evidence[0].session_id || ''].join('|')`; the digest is modelled by its
preimage (see the header note).  The staging store is an explicit list of
already-present fingerprints; `isDuplicate` is membership in that list
extended with the fingerprints inserted earlier in the same batch (each
insert is awaited before the next duplicate check runs).  Store-level
insert errors are not modelled, so the per-item `rejected` counter of the
success path is 0. -/

/-- `item.evidence?.[0]?.session_id || ''`. -/
def firstEvidenceSid (item : Item) : String :=
  match item.evidence.head? with
  | some e => e.session_id
  | none => ""

/-- The preimage string of `generateHash(item)`:
`[title || '', content.substring(0,200), evidence[0].session_id || ''].join('|')`. -/
def generateHashData (item : Item) : String :=
  (item.title.getD "") ++ "|" ++ jsTake item.content 200 ++ "|" ++ firstEvidenceSid item

/-- `mapBucketToCategory`, the fixed bucket→category lookup table. -/
def bucketCategoryMap : List (String × String) :=
  [("Bugs Open", "bug"), ("Bugs Fixed", "bug"), ("Todos", "todo"),
   ("Journal", "general"), ("Work Log", "general"), ("Ideas", "knowledge"),
   ("Decisions", "decision"), ("Lessons", "lesson"),
   ("System Breakdown", "knowledge"), ("How-To Guide", "knowledge"),
   ("Schematic", "knowledge"), ("Reference", "knowledge"),
   ("Naming Conventions", "config"), ("File Structure", "config"),
   ("Database Patterns", "config"), ("API Patterns", "config"),
   ("Component Patterns", "config"), ("Quirks & Gotchas", "knowledge"),
   ("Snippets", "knowledge"), ("Other", "general")]

def mapBucketToCategory (bucket : String) : String :=
  match bucketCategoryMap.find? (fun e => e.1 == bucket) with
  | some e => e.2
  | none => "general"

/-- A row of the `dev_ai_smart_extractions` staging collection (the
timestamp fields `metadata.extracted_at` / `created_at` are wall-clock
values and are not modelled). -/
structure StagedRow where
  bucket : String
  category : String
  content : String
  title : String
  priority : String
  status : String
  session_id : String
  project_id : String
  hash : String
  metadata_evidence : List Evidence
  metadata_extractor : String
  metadata_project_slug : Option String
deriving Repr, DecidableEq

/-- The row constructed for one item on the insert path. -/
def mkStagedRow (item : Item) (sessionId projectId : String)
    (projectSlug : Option String) (hash : String) : StagedRow :=
  { bucket := item.bucket
    category := mapBucketToCategory item.bucket
    content := item.content
    title :=
      match item.title with
      | some t =>
        if t = "" then (((jsTake item.content 200).splitOn "\n").headD "") else t
      | none => (((jsTake item.content 200).splitOn "\n").headD "")
    priority :=
      match item.priority with
      | some p => if p = "" then "medium" else p
      | none => "medium"
    status := "pending"
    session_id := sessionId
    project_id := projectId
    hash := hash
    metadata_evidence := item.evidence
    metadata_extractor := "jason-v1"
    metadata_project_slug := projectSlug }

/-- The per-item loop of `insertStaging`: duplicate check against the
fingerprints already present (store plus earlier inserts of this batch),
then insert.  Returns (inserted count, duplicate count, rows written). -/
def insertStagingLoop (sessionId projectId : String) (projectSlug : Option String) :
    List String → List Item → Nat × Nat × List StagedRow
  | _, [] => (0, 0, [])
  | existing, item :: rest =>
    let hash := generateHashData item
    if existing.contains hash then
      let next := insertStagingLoop sessionId projectId projectSlug existing rest
      (next.1, next.2.1 + 1, next.2.2)
    else
      let row := mkStagedRow item sessionId projectId projectSlug hash
      let next := insertStagingLoop sessionId projectId projectSlug (existing ++ [hash]) rest
      (next.1 + 1, next.2.1, row :: next.2.2)

/-- The result record of `insertStaging`. -/
structure StagingResult where
  inserted : Nat
  duplicates : Nat
  rejected : Nat
  error : Option String
deriving Repr, DecidableEq

/-- `insertStaging(items, sessionId, projectSlug)`, with the project list
and the fingerprints already staged passed explicitly.  A falsy
`projectSlug` skips the resolver; an unresolved project identity rejects
the whole batch with zero rows written. -/
def insertStaging (projects : List Project) (existingHashes : List String)
    (items : List Item) (sessionId : String) (projectSlug : Option String) :
    StagingResult × List StagedRow :=
  let projectId :=
    match projectSlug with
    | some s => if s = "" then none else resolveProjectId projects (some s)
    | none => none
  match projectId with
  | none =>
    ({ inserted := 0, duplicates := 0, rejected := items.length,
       error := some "project_id unresolved" }, [])
  | some pid =>
    let r := insertStagingLoop sessionId pid projectSlug existingHashes items
    ({ inserted := r.1, duplicates := r.2.1, rejected := 0, error := none }, r.2.2)

/-! Section: Theorems -/

/-- Claim C9: `parseDuration` maps `"30m"` to 1,800,000 ms and `"2h"` to
7,200,000 ms, and every input not of the form `<integer><unit>` with unit
in {m, h, d} yields the single fixed default (1,800,000 ms, i.e. 30
minutes) rather than failing. -/
theorem parseDuration_spec :
    parseDuration "30m" = 1800000 ∧ parseDuration "2h" = 7200000 ∧
    ∀ s : String, ¬ DurationWellFormed s → parseDuration s = 1800000 := by
  refine ⟨by decide, by decide, fun s h => ?_⟩
  unfold parseDuration parseDurationCore
  split
  · next u hl =>
    rw [if_neg]
    intro hcond
    simp only [Bool.and_eq_true, Bool.or_eq_true, decide_eq_true_eq, ne_eq] at hcond
    refine h ⟨s.toList.dropLast, u, ?_, hcond.1.1, ?_, ?_⟩
    · obtain ⟨ys, hys⟩ := List.getLast?_eq_some_iff.mp hl
      rw [hys, List.dropLast_concat]
    · intro c hc
      exact (List.all_eq_true.mp hcond.1.2) c hc
    · exact or_assoc.mp hcond.2
  · rfl

/-- Claim C9 witness: the malformed string `"90x"` falls back to the
default. -/
theorem parseDuration_spec_witness : parseDuration "90x" = 1800000 := by
  refine parseDuration_spec.2.2 "90x" ?_
  rintro ⟨ds, u, hsplit, -, -, hu⟩
  have hgl : (['9', '0', 'x'] : List Char).getLast? = some u := by
    rw [show (['9', '0', 'x'] : List Char) = "90x".toList from by decide, hsplit,
      List.getLast?_concat]
  have hux : u = 'x' := by simpa using hgl.symm
  rcases hu with h | h | h <;> rw [hux] at h <;> exact absurd h (by decide)

/-- Claim C6 counterexample: for the input slug `"null"` (a plain string,
not an absent value) and a store containing a project whose slug is
exactly `"null"`, the claim's resolution order predicts that project's
identity, but the code short-circuits to `null`: the literal string
`"null"` is also a sentinel, which the claim omits. -/
theorem resolveProjectId_claimC6_counterexample :
    resolveProjectIdClaimC6 [⟨"p1", some "null", "Null Project"⟩] (some "null")
        = some "p1" ∧
      resolveProjectId [⟨"p1", some "null", "Null Project"⟩] (some "null") = none := by
  constructor <;> rfl

/-- Claim C6 amended: `resolveProjectId` returns `null` immediately when
the slug is absent, empty, or one of the literal strings `"null"`,
`"terminal"`, `"unassigned"`; otherwise it returns the identity of the
first project matching in order exact equality, slug-prefix
(`input + "-"`), substring containment, and `null` when no project
matches — i.e. it coincides with the amended specification. -/
theorem resolveProjectId_amended (projects : List Project) (slug : Option String) :
    resolveProjectId projects slug = resolveProjectIdAmendedSpec projects slug := by
  cases slug with
  | none => rfl
  | some s =>
    by_cases hs : s = "" ∨ s = "null" ∨ s = "terminal" ∨ s = "unassigned"
    · rcases hs with h | h | h | h <;> subst h <;> rfl
    · push_neg at hs
      obtain ⟨h1, h2, h3, h4⟩ := hs
      simp only [resolveProjectId, resolveProjectIdAmendedSpec, slugSentinel,
        Option.getD_some]
      rw [if_neg (by simp [h1, h2, h3, h4]), if_neg (by simp [h1, h2, h3, h4])]
      cases projects.find? (fun p => p.slug = some s) with
      | some p => rfl
      | none =>
        cases projects.find? (fun p =>
            match p.slug with
            | some t => jsStartsWith t (s ++ "-")
            | none => false) with
        | some p => rfl
        | none =>
          cases projects.find? (fun p =>
              match p.slug with
              | some t => jsIncludes t s
              | none => false) with
          | some p => rfl
          | none => rfl

/-- Claim C1: for every batch handed to `insertStaging` with a project slug
that cannot be resolved (absent slug, or the resolver returns `null` —
which covers sentinel values and no-match), the stager inserts zero rows
and returns `inserted = 0`, `duplicates = 0`, `rejected = batch size`,
with the distinguishing error marker `'project_id unresolved'`. -/
theorem insertStaging_unresolved_rejects_batch (projects : List Project)
    (existingHashes : List String) (items : List Item) (sessionId : String)
    (projectSlug : Option String) (_hne : items ≠ [])
    (hfail : projectSlug = none ∨ resolveProjectId projects projectSlug = none) :
    insertStaging projects existingHashes items sessionId projectSlug =
      ({ inserted := 0, duplicates := 0, rejected := items.length,
         error := some "project_id unresolved" }, []) := by
  unfold insertStaging
  cases projectSlug with
  | none => rfl
  | some s =>
    rcases hfail with h | h
    · exact absurd h (by simp)
    · by_cases hs : s = ""
      · simp [hs]
      · simp only [hs, if_false, if_neg, not_false_eq_true]
        rw [h]

/-- Claim C1 witness: a singleton batch with a slug matching no project (the
project list is empty) is rejected whole. -/
theorem insertStaging_unresolved_rejects_batch_witness :
    insertStaging [] []
        [{ bucket := "Todos", title := some "t", content := "long enough content",
           priority := none, tags := [],
           evidence := [⟨"s1", "x", "strict-marker"⟩] }] "s1" (some "ai-jason") =
      ({ inserted := 0, duplicates := 0, rejected := 1,
         error := some "project_id unresolved" }, []) :=
  insertStaging_unresolved_rejects_batch [] [] _ "s1" (some "ai-jason")
    (by simp) (Or.inr (by rfl))

/-- Membership in the window query implies membership in the store and
satisfaction of the store-side predicate. -/
theorem mem_windowQuery {store : List Session} {cutoff : Nat}
    {status : Option String} {limit : Nat} {s : Session}
    (h : s ∈ windowQuery store cutoff status limit) :
    s ∈ store ∧ windowPred cutoff status s = true := by
  unfold windowQuery at h
  have h1 := List.mem_of_mem_take h
  simp only [List.mem_insertionSort] at h1
  exact ⟨(List.mem_filter.mp h1).1, (List.mem_filter.mp h1).2⟩

/-- Membership in the window-mode selection implies membership in the
store, the store-side predicate, and the truth gate. -/
theorem mem_selectSessionsWindow {store : List Session} {now : Nat}
    {since : String} {slugs : List String} {limit : Nat} {status : Option String}
    {s : Session} (h : s ∈ selectSessionsWindow store now since slugs limit status) :
    s ∈ store ∧ windowPred (now - parseDuration since) status s = true ∧
      truthGate slugs s = true := by
  unfold selectSessionsWindow windowFiltered at h
  have h1 := List.mem_of_mem_take h
  have h2 := List.mem_filter.mp h1
  have h3 := mem_windowQuery h2.1
  exact ⟨h3.1, h3.2, h2.2⟩

/-- Shared concrete sessions used by the closed-instance theorems. -/
def cleanedOld : Session := ⟨"s-old", some "ai-jason", "cleaned", 1⟩

def cleanedNew : Session := ⟨"s-new", some "ai-jason", "cleaned", 2⟩

def extractedSession : Session := ⟨"s-ext", some "ai-jason", "extracted", 0⟩

/-- Claim C2 counterexample: selection by explicit session identity is a
pure point lookup with no status check, so a session whose status is
already `extracted` IS returned on that path — the status gate holds only
in window mode, contradicting the claim's requirement that it hold for
both selection modes. -/
theorem selectSessionsById_returns_extracted :
    selectSessionsById [extractedSession] "s-ext" = [extractedSession] ∧
      extractedSession.status = "extracted" :=
  ⟨rfl, rfl⟩

/-- Claim C2 amended: in window mode the selector never returns a session
whose status is `extracted` (the query carries an unconditional
`not('status','eq','extracted')` clause), so such a session is never
re-processed by a window-mode run; by-identity selection does not check
status. -/
theorem selectSessionsWindow_no_extracted (store : List Session) (now : Nat)
    (since : String) (slugs : List String) (limit : Nat) (status : Option String)
    (s : Session) (h : s ∈ selectSessionsWindow store now since slugs limit status) :
    s.status ≠ "extracted" := by
  have hp := (mem_selectSessionsWindow h).2.1
  unfold windowPred at hp
  simp only [Bool.and_eq_true, Bool.not_eq_true', beq_eq_false_iff_ne] at hp
  exact hp.1.2

/-- Claim C2 witness: a concrete cleaned session selected by a window-mode
run is not `extracted`. -/
theorem selectSessionsWindow_no_extracted_witness :
    cleanedOld.status ≠ "extracted" :=
  selectSessionsWindow_no_extracted [cleanedOld] 10 "1m" ["ai-jason"] 5
    (some "cleaned") cleanedOld (by decide)

/-- Claim C3: every session returned by window-mode selection passes the
truth gate: its slug is non-empty; with an empty allowed-slug list the
slug is neither `"unassigned"` nor `"terminal"`; with a non-empty list the
slug contains at least one allowed token as a substring.  Contrapositively
every session failing the gate is excluded, regardless of content. -/
theorem selectSessionsWindow_truth_gate (store : List Session) (now : Nat)
    (since : String) (slugs : List String) (limit : Nat) (status : Option String)
    (s : Session) (h : s ∈ selectSessionsWindow store now since slugs limit status) :
    s.project_slug.getD "" ≠ "" ∧
      (slugs = [] → s.project_slug.getD "" ≠ "unassigned" ∧
        s.project_slug.getD "" ≠ "terminal") ∧
      (slugs ≠ [] → ∃ tk ∈ slugs, jsIncludes (s.project_slug.getD "") tk = true) := by
  have hg := (mem_selectSessionsWindow h).2.2
  unfold truthGate at hg
  cases slugs with
  | nil =>
    simp only [List.length_nil, gt_iff_lt, lt_self_iff_false, if_false,
      Bool.and_eq_true, Bool.not_eq_true', beq_eq_false_iff_ne] at hg
    exact ⟨hg.1.1, fun _ => ⟨hg.1.2, hg.2⟩, fun hne => absurd rfl hne⟩
  | cons a as =>
    simp only [List.length_cons, gt_iff_lt, Nat.succ_pos, if_true,
      Bool.and_eq_true, Bool.not_eq_true', beq_eq_false_iff_ne,
      List.any_eq_true] at hg
    exact ⟨hg.1, fun heq => absurd heq (by simp), fun _ => hg.2⟩

/-- Claim C3 witness: the truth-gate consequence at a concrete selected
session. -/
theorem selectSessionsWindow_truth_gate_witness :
    cleanedOld.project_slug.getD "" ≠ "" ∧
      ((["ai-jason"] : List String) = [] →
        cleanedOld.project_slug.getD "" ≠ "unassigned" ∧
          cleanedOld.project_slug.getD "" ≠ "terminal") ∧
      ((["ai-jason"] : List String) ≠ [] →
        ∃ tk ∈ (["ai-jason"] : List String),
          jsIncludes (cleanedOld.project_slug.getD "") tk = true) :=
  selectSessionsWindow_truth_gate [cleanedOld] 10 "1m" ["ai-jason"] 5
    (some "cleaned") cleanedOld (by decide)

/-- Claim C7 counterexample: with two eligible sessions and `limit = 1`, the
window-mode selection retains the OLDER one — the query orders by
`created_at` ascending (`ascending: true`), so truncation keeps the
earliest-created sessions, not the most recent ones as the claim
states. -/
theorem selectSessionsWindow_recency_counterexample :
    selectSessionsWindow [cleanedNew, cleanedOld] 10 "1m" ["ai-jason"] 1
        (some "cleaned") = [cleanedOld] ∧
      cleanedOld.created_at < cleanedNew.created_at := by
  exact ⟨by decide, by decide⟩

/-- Claim C7 amended: window-mode selection is ordered ascending by
creation time (oldest first), and when truncation to the limit occurs the
retained sessions are the earliest-created ones among those passing the
filters: every retained session's creation time is at most that of every
session cut off by the limit. -/
theorem selectSessionsWindow_oldest_first (store : List Session) (now : Nat)
    (since : String) (slugs : List String) (limit : Nat) (status : Option String) :
    List.Sorted createdLe (selectSessionsWindow store now since slugs limit status) ∧
      ∀ x ∈ selectSessionsWindow store now since slugs limit status,
        ∀ y ∈ (windowFiltered store now since slugs limit status).drop limit,
          x.created_at ≤ y.created_at := by
  have hsorted : List.Sorted createdLe
      (windowFiltered store now since slugs limit status) := by
    unfold windowFiltered windowQuery
    have h1 : List.Sorted createdLe
        ((store.filter (windowPred (now - parseDuration since) status)).insertionSort
          createdLe) :=
      List.sorted_insertionSort createdLe _
    have h2 := List.Pairwise.sublist (List.take_sublist (limit * 3) _) h1
    exact List.Pairwise.sublist (List.filter_sublist _) h2
  constructor
  · exact List.Pairwise.sublist (List.take_sublist limit _) hsorted
  · intro x hx y hy
    have hall : List.Pairwise createdLe
        ((windowFiltered store now since slugs limit status).take limit ++
          (windowFiltered store now since slugs limit status).drop limit) := by
      rw [List.take_append_drop]
      exact hsorted
    exact (List.pairwise_append.mp hall).2.2 x hx y hy

/-- Claim C7 witness: at the two-session store, the retained (oldest)
session's creation time is at most that of the session cut off by the
limit. -/
theorem selectSessionsWindow_oldest_first_witness :
    cleanedOld.created_at ≤ cleanedNew.created_at :=
  (selectSessionsWindow_oldest_first [cleanedNew, cleanedOld] 10 "1m" ["ai-jason"] 1
      (some "cleaned")).2 cleanedOld (by decide) cleanedNew (by decide)

/-- One pattern yields no usable capture on a line: either no regex match,
or the trimmed capture is shorter than 10 characters (in which case the
code's `text.length >= 10` check drops it). -/
def patternShort (p : MarkerPattern) (line : String) : Bool :=
  match lineCapture p line with
  | some c => decide ((jsTrimList c).length < 10)
  | none => true

/-- A pattern with no usable capture contributes nothing on a one-line
content and leaves the seen set unchanged. -/
theorem scanPattern_short {p : MarkerPattern} {line : String}
    (h : patternShort p line = true) (b : String) (pr : Option String)
    (sid : String) (seen : List String) :
    scanPattern p b pr sid [line] seen = ([], seen) := by
  unfold patternShort at h
  cases hc : lineCapture p line with
  | none => simp [scanPattern, hc]
  | some c =>
    rw [hc] at h
    simp only [decide_eq_true_eq] at h
    have hlen : ¬ (10 ≤ (String.mk (jsTrimList c)).length) := by
      have hsm : (String.mk (jsTrimList c)).length = (jsTrimList c).length := rfl
      omega
    simp [scanPattern, hc, hlen]
    intro hle
    omega

/-- A family of patterns, none with a usable capture, contributes nothing
on a one-line content. -/
theorem scanPatterns_short {ps : List MarkerPattern} {line : String}
    (h : ∀ p ∈ ps, patternShort p line = true) (b : String) (pr : Option String)
    (sid : String) (seen : List String) :
    scanPatterns ps b pr sid [line] seen = ([], seen) := by
  induction ps with
  | nil => rfl
  | cons p rest ih =>
    have h1 := scanPattern_short (h p (List.mem_cons_self p rest)) b pr sid seen
    have h2 := ih (fun q hq => h q (List.mem_cons_of_mem p hq))
    simp [scanPatterns, h1, h2]

/-- Every item produced by one pattern scan carries that scan's bucket. -/
theorem scanPattern_bucket {p : MarkerPattern} {b : String} {pr : Option String}
    {sid : String} : ∀ {lines seen : List String} {i : Item},
    i ∈ (scanPattern p b pr sid lines seen).1 → i.bucket = b := by
  intro lines
  induction lines with
  | nil =>
    intro seen i hi
    simp [scanPattern] at hi
  | cons line rest ih =>
    intro seen i hi
    unfold scanPattern at hi
    cases hc : lineCapture p line with
    | none =>
      rw [hc] at hi
      exact ih hi
    | some c =>
      rw [hc] at hi
      simp only at hi
      split at hi
      · simp only [List.mem_cons] at hi
        rcases hi with hi | hi
        · rw [hi]
        · exact ih hi
      · exact ih hi

/-- Every item produced by a family scan carries that family's bucket. -/
theorem scanPatterns_bucket {b : String} {pr : Option String} {sid : String} :
    ∀ {ps : List MarkerPattern} {lines seen : List String} {i : Item},
    i ∈ (scanPatterns ps b pr sid lines seen).1 → i.bucket = b := by
  intro ps
  induction ps with
  | nil =>
    intro lines seen i hi
    simp [scanPatterns] at hi
  | cons p rest ih =>
    intro lines seen i hi
    unfold scanPatterns at hi
    simp only [List.mem_append] at hi
    rcases hi with hi | hi
    · exact scanPattern_bucket hi
    · exact ih hi

/-- Every rule-matched item sits in one of the three rule buckets. -/
theorem extractWithRules_bucket {lines : List String} {session : Session} {i : Item}
    (h : i ∈ extractWithRules lines session) :
    i.bucket = "Todos" ∨ i.bucket = "Bugs Open" ∨ i.bucket = "Decisions" := by
  unfold extractWithRules at h
  simp only [List.mem_append] at h
  rcases h with (h | h) | h
  · exact Or.inl (scanPatterns_bucket h)
  · exact Or.inr (Or.inl (scanPatterns_bucket h))
  · exact Or.inr (Or.inr (scanPatterns_bucket h))

/-- Claim C4: the line `TODO: fix the login bug` yields exactly one item,
with bucket `Todos`, content `"fix the login bug"` and priority `medium`;
the line `BUG: payments fail silently` yields exactly one item with bucket
`Bugs Open` and priority `high`; and a line on which no pattern captures a
text of at least 10 characters (after trimming) yields no item. -/
theorem extractWithRules_markers :
    (∀ session : Session, extractWithRules ["TODO: fix the login bug"] session =
      [{ bucket := "Todos", title := some "fix the login bug",
         content := "fix the login bug", priority := some "medium", tags := [],
         evidence := [⟨session.id, "TODO: fix the login bug", "strict-marker"⟩] }]) ∧
    (∀ session : Session, extractWithRules ["BUG: payments fail silently"] session =
      [{ bucket := "Bugs Open", title := some "payments fail silently",
         content := "payments fail silently", priority := some "high", tags := [],
         evidence := [⟨session.id, "BUG: payments fail silently", "strict-marker"⟩] }]) ∧
    (∀ (session : Session) (line : String),
      (∀ p ∈ todoPatterns ++ bugPatterns ++ decisionPatterns,
        patternShort p line = true) →
      extractWithRules [line] session = []) := by
  refine ⟨fun session => rfl, fun session => rfl, fun session line h => ?_⟩
  have ht := @scanPatterns_short todoPatterns line
    (fun p hp => h p (by simp [hp])) "Todos" (some "medium") session.id
  have hb := @scanPatterns_short bugPatterns line
    (fun p hp => h p (by simp [hp])) "Bugs Open" (some "high") session.id
  have hd := @scanPatterns_short decisionPatterns line
    (fun p hp => h p (by simp [hp])) "Decisions" none session.id
  simp [extractWithRules, ht, hb, hd]

/-- Claim C4 witness: `TODO: short` (capture shorter than 10 characters)
yields no item. -/
theorem extractWithRules_markers_witness :
    extractWithRules ["TODO: short"] cleanedOld = [] :=
  extractWithRules_markers.2.2 cleanedOld "TODO: short" (by decide)

/-- Claim C5: on every transcript with non-empty content, `extractItems`
yields the worklog item first and exactly one item with bucket `Work Log`
overall (even with zero markers); the worklog's content is the fixed-form
sentence naming the project slug and the total turn count, and its title
derives from the first `USER:` line's topic (or the generic fallback
inside `worklogTopic`). -/
theorem extractItems_single_worklog (t : Transcript) (session : Session)
    (h : t.content ≠ "") :
    extractItems t session =
      generateWorklog (contentLines t.content) session ::
        extractWithRules (contentLines t.content) session ∧
    ((extractItems t session).filter (fun i => i.bucket == "Work Log")).length = 1 ∧
    (generateWorklog (contentLines t.content) session).bucket = "Work Log" ∧
    (generateWorklog (contentLines t.content) session).content =
      "Development session on " ++ worklogSlug session ++ ". " ++
        toString (countTurnLines (contentLines t.content) "USER:" +
          countTurnLines (contentLines t.content) "ASSISTANT:") ++
        " conversation turns." ∧
    (generateWorklog (contentLines t.content) session).title =
      some (worklogSlug session ++ ": " ++
        jsTake (worklogTopic (contentLines t.content)) 80) := by
  have he : extractItems t session =
      generateWorklog (contentLines t.content) session ::
        extractWithRules (contentLines t.content) session := by
    unfold extractItems
    rw [if_neg h]
  refine ⟨he, ?_, rfl, rfl, rfl⟩
  have hrest : (extractWithRules (contentLines t.content) session).filter
      (fun i => i.bucket == "Work Log") = [] := by
    rw [List.filter_eq_nil_iff]
    intro a ha
    rcases extractWithRules_bucket ha with hb | hb | hb <;> simp [hb]
  rw [he, List.filter_cons_of_pos (by rfl), hrest]
  rfl

/-- Claim C5 witness: a concrete marker-free transcript still yields exactly
one Work Log item. -/
theorem extractItems_single_worklog_witness :
    ((extractItems ⟨"just chatting about nothing"⟩ cleanedOld).filter
      (fun i => i.bucket == "Work Log")).length = 1 :=
  (extractItems_single_worklog ⟨"just chatting about nothing"⟩ cleanedOld
    (by decide)).2.1

/-- Claim C8: an item whose title matches a garbage pattern (begins with
`|`, begins with a bracketed ordinal like `[12]`, begins with `http`, is
blank, or contains no alphabetic character) is rejected by validation —
for the empty title via the schema's minimum length, otherwise via the
garbage-title guardrail; concretely, an otherwise-valid item titled
`"[3] see above"` is invalid while the same item titled
`"Improve retry logic"` is valid. -/
theorem validateItem_title_garbage :
    (∀ (item : Item) (t : String), item.title = some t → titleGarbage t = true →
      (validateItem item).valid = false) ∧
    (validateItem (Item.mk "Todos" (some "[3] see above")
      "retry handling needs a fix" (some "medium") []
      [⟨"s-old", "x", "strict-marker"⟩])).valid = false ∧
    (validateItem (Item.mk "Todos" (some "Improve retry logic")
      "retry handling needs a fix" (some "medium") []
      [⟨"s-old", "x", "strict-marker"⟩])).valid = true := by
  refine ⟨fun item t hsome hg => ?_, by decide, by decide⟩
  simp only [validateItem]
  rw [Bool.eq_false_iff]
  intro hemp
  have herr : validateItemErrors item = [] := by
    rwa [List.isEmpty_iff] at hemp
  by_cases ht : t = ""
  · subst ht
    unfold validateItemErrors schemaErrors at herr
    rw [hsome] at herr
    simp at herr
  · unfold validateItemErrors at herr
    rw [hsome] at herr
    simp [ht, hg] at herr

/-- Claim C8 witness: the general garbage-title rejection applied to the
concrete bracketed-ordinal title. -/
theorem validateItem_title_garbage_witness :
    (validateItem (Item.mk "Decisions" (some "[12] continued")
      "we will keep the current API" none []
      [⟨"s-old", "x", "strict-marker"⟩])).valid = false :=
  validateItem_title_garbage.1 _ "[12] continued" rfl (by decide)

/-- Claim C10: two items that agree on title (absent treated as empty), on
the first 200 characters of content, and on the first evidence entry's
session reference have the same fingerprint preimage — hence the same md5
fingerprint — regardless of bucket, priority, tags, remaining content, or
further evidence entries; consequently, staged one after the other into an
empty staging area, the second is counted as a duplicate. -/
theorem generateHash_agreement (i1 i2 : Item)
    (ht : i1.title.getD "" = i2.title.getD "")
    (hc : jsTake i1.content 200 = jsTake i2.content 200)
    (he : firstEvidenceSid i1 = firstEvidenceSid i2) :
    generateHashData i1 = generateHashData i2 ∧
      ∀ (sid pid : String) (slug : Option String),
        (insertStagingLoop sid pid slug [] [i1, i2]).2.1 = 1 := by
  have hdata : generateHashData i1 = generateHashData i2 := by
    unfold generateHashData
    rw [ht, hc, he]
  refine ⟨hdata, fun sid pid slug => ?_⟩
  simp [insertStagingLoop, hdata.symm]

/-- Concrete items for the C10 witness: same title, content and first
evidence session reference, different bucket, priority, tags and trailing
evidence. -/
def hashTwinA : Item :=
  Item.mk "Todos" (some "same title") "the very same content" (some "medium") []
    [⟨"s1", "x", "strict-marker"⟩, ⟨"zz", "y", "loc"⟩]

def hashTwinB : Item :=
  Item.mk "Bugs Open" (some "same title") "the very same content" (some "high")
    ["extra"] [⟨"s1", "other", "session-summary"⟩]

set_option maxHeartbeats 1000000 in
/-- Claim C10 witness: concrete items differing in bucket, priority, tags
and trailing evidence entries share a fingerprint and deduplicate. -/
theorem generateHash_agreement_witness :
    (insertStagingLoop "s-old" "p1" none [] [hashTwinA, hashTwinB]).2.1 = 1 :=
  (generateHash_agreement hashTwinA hashTwinB (by decide) (by decide)
    (by decide)).2 "s-old" "p1" none

end Jason
